import Mathlib

/-!
Shallow embedding of the MiMutual news backend (a Django application),
covering the `News` model lifecycle (slug generation, soft delete, restore,
publish, view counting), the REST viewset actions, the update serializer and
the admin image-upload endpoint, together with proofs settling the claims of
the natural-language specification.

Times are modelled as integers, user identities as integers, and database
rows as plain records; the source files embedded here are
`admin/news/models.py`, `admin/news/views.py`, `admin/news/serializers.py`
and `admin/news/admin.py`.
-/

/-! ## Python primitives used by the embedding -/

/-- Python truthiness of a nullable integer field: `None` and `0` are falsy. -/
def py_truthy_int : Option Int → Bool
  | none => false
  | some v => v != 0

/-- Python truthiness of a nullable datetime field: only `None` is falsy
(a `datetime` object is always truthy). -/
def py_truthy_datetime : Option Int → Bool
  | none => false
  | some _ => true

/-! ## Decimal representation

`News.save` builds collision suffixes with `f"{base_slug}-{counter}"`, i.e.
with the decimal representation of `counter`; its uniqueness proof needs
`Nat.repr` to be injective.  `Nat.repr` is defined through the fuel-based
`Nat.toDigitsCore`, which we bridge to a well-founded digit function and
evaluate back to the represented number. -/

/-- Fuel-free decimal digit list of `n`, most significant digit first. -/
def decDigits (n : Nat) : List Char :=
  if _h : n < 10 then [Nat.digitChar n]
  else decDigits (n / 10) ++ [Nat.digitChar (n % 10)]
  decreasing_by exact Nat.div_lt_self (by omega) (by omega)

/-- Numeric value of a decimal digit character. -/
def dval (c : Char) : Nat := c.toNat - '0'.toNat

/-- Decimal value of a digit string, most significant digit first. -/
def decVal (l : List Char) : Nat := l.foldl (fun a c => 10 * a + dval c) 0

theorem decVal_append_singleton (l : List Char) (c : Char) :
    decVal (l ++ [c]) = 10 * decVal l + dval c := by
  simp [decVal, List.foldl_append]

theorem dval_digitChar {k : Nat} (h : k < 10) : dval (Nat.digitChar k) = k := by
  interval_cases k <;> rfl

theorem decVal_decDigits (n : Nat) : decVal (decDigits n) = n := by
  induction n using Nat.strong_induction_on with
  | _ n ih =>
    by_cases h : n < 10
    · rw [decDigits]
      simp only [h, dif_pos]
      simpa [decVal] using dval_digitChar h
    · rw [decDigits]
      simp only [h, dif_neg, not_false_iff]
      rw [decVal_append_singleton,
        ih (n / 10) (Nat.div_lt_self (by omega) (by omega)),
        dval_digitChar (Nat.mod_lt n (by omega))]
      omega

theorem decDigits_ne_nil (n : Nat) : decDigits n ≠ [] := by
  rw [decDigits]
  by_cases h : n < 10 <;> simp [h]

theorem toDigitsCore_append (b : Nat) :
    ∀ (fuel n : Nat) (acc : List Char),
      Nat.toDigitsCore b fuel n acc = Nat.toDigitsCore b fuel n [] ++ acc := by
  intro fuel
  induction fuel with
  | zero => intro n acc; simp [Nat.toDigitsCore]
  | succ fuel ih =>
    intro n acc
    simp only [Nat.toDigitsCore]
    by_cases h : n / b = 0
    · simp [h]
    · simp only [h, if_neg, not_false_iff]
      rw [ih (n / b) (Nat.digitChar (n % b) :: acc),
        ih (n / b) [Nat.digitChar (n % b)], List.append_assoc]
      rfl

theorem toDigitsCore_eq_decDigits :
    ∀ (fuel n : Nat), n < fuel → Nat.toDigitsCore 10 fuel n [] = decDigits n := by
  intro fuel
  induction fuel with
  | zero => intro n h; omega
  | succ fuel ih =>
    intro n h
    simp only [Nat.toDigitsCore]
    by_cases hd : n / 10 = 0
    · have h10 : n < 10 := by omega
      rw [decDigits]
      simp [hd, h10, Nat.mod_eq_of_lt h10]
    · have h10 : ¬ n < 10 := by omega
      simp only [hd, if_neg, not_false_iff]
      rw [toDigitsCore_append, ih (n / 10) (by omega)]
      conv_rhs => rw [decDigits]
      simp [h10]

theorem nat_repr_data (n : Nat) : (Nat.repr n).data = decDigits n := by
  show (Nat.toDigits 10 n).asString.data = decDigits n
  rw [Nat.toDigits]
  exact toDigitsCore_eq_decDigits (n + 1) n (Nat.lt_succ_self n)

theorem nat_repr_injective {m n : Nat} (h : Nat.repr m = Nat.repr n) : m = n := by
  have hd : decDigits m = decDigits n := by
    rw [← nat_repr_data, ← nat_repr_data, h]
  have := congrArg decVal hd
  rwa [decVal_decDigits, decVal_decDigits] at this

theorem nat_repr_data_ne_nil (n : Nat) : (Nat.repr n).data ≠ [] := by
  rw [nat_repr_data]; exact decDigits_ne_nil n

/-! ## Slug derivation (`django.utils.text.slugify`)

Source (with `allow_unicode=False`): NFKD-normalise, encode to ASCII
ignoring unencodable characters, lowercase, delete every character that is
not a word character, whitespace or a hyphen, collapse runs of hyphens and
whitespace to a single hyphen, and strip leading/trailing hyphens and
underscores.  The embedding models titles over ASCII: the NFKD + ASCII
encode step is modelled as dropping non-ASCII code points. -/

/-- Python regex `\w` over ASCII input: letters, digits, underscore. -/
def isWordChar (c : Char) : Bool :=
  ('a' ≤ c && c ≤ 'z') || ('A' ≤ c && c ≤ 'Z') || ('0' ≤ c && c ≤ '9') || c == '_'

/-- Python regex `\s` over ASCII input. -/
def isPySpace (c : Char) : Bool :=
  c == ' ' || c == '\t' || c == '\n' || c == '\r' || c == '\x0b' || c == '\x0c'

/-- Characters collapsed by `re.sub(r"[-\s]+", "-", value)`. -/
def dashOrSpace (c : Char) : Bool := c == '-' || isPySpace c

/-- Replace every maximal run of hyphens/whitespace by a single hyphen. -/
def collapseDashes : List Char → List Char
  | [] => []
  | [c] => if dashOrSpace c then ['-'] else [c]
  | c1 :: c2 :: rest =>
    if dashOrSpace c1 && dashOrSpace c2 then collapseDashes (c2 :: rest)
    else (if dashOrSpace c1 then '-' else c1) :: collapseDashes (c2 :: rest)

/-- Python `str.strip("-_")`. -/
def stripDashUnderscore (l : List Char) : List Char :=
  ((l.dropWhile fun c => c == '-' || c == '_').reverse.dropWhile
    fun c => c == '-' || c == '_').reverse

/-- Model of `django.utils.text.slugify` for ASCII titles. -/
def slugify (s : String) : String :=
  let ascii := s.data.filter fun c => c.toNat < 128
  let lowered := ascii.map Char.toLower
  let kept := lowered.filter fun c => isWordChar c || isPySpace c || c == '-'
  (stripDashUnderscore (collapseDashes kept)).asString

example : slugify "Test News" = "test-news" := by decide
example : slugify "!!!" = "" := by decide

/-! ## Slug collision loop (`News.save`, models.py lines 98-106)

Source:
```
base_slug = slugify(self.title)
slug = base_slug
counter = 1
while News.all_objects.filter(slug=slug).exists():
    slug = f"{base_slug}-{counter}"
    counter += 1
self.slug = slug
```
`existing` is the list of slugs of ALL rows (soft-deleted included), i.e.
`News.all_objects`.  The loop terminates because the candidates are pairwise
distinct: `existing.length + 1` iterations always suffice, which the fuel
argument below makes explicit and `find_free_slug_spec` proves. -/

/-- Candidate built by one loop iteration: `f"{base_slug}-{counter}"`. -/
def slug_attempt (base : String) (counter : Nat) : String :=
  base ++ "-" ++ Nat.repr counter

/-- Fuel-bounded transcription of the `while` loop. -/
def find_free_slug (base : String) (existing : List String) :
    Nat → String → Nat → String
  | 0, slug, _ => slug
  | fuel + 1, slug, counter =>
    if slug ∈ existing then
      find_free_slug base existing fuel (slug_attempt base counter) (counter + 1)
    else slug

/-- Slug assigned by `News.save` when the record has no slug. -/
def genSlug (title : String) (existing : List String) : String :=
  find_free_slug (slugify title) existing (existing.length + 1) (slugify title) 1

/-- Candidate inspected by the loop `j` iterations after reaching state
`(slug, counter)`. -/
def slug_cand (base slug : String) (counter : Nat) : Nat → String
  | 0 => slug
  | j + 1 => slug_attempt base (counter + j)

theorem slug_attempt_injective (base : String) {j k : Nat}
    (h : slug_attempt base j = slug_attempt base k) : j = k := by
  have hd := congrArg String.data h
  simp only [slug_attempt, String.data_append, List.append_assoc] at hd
  have hr : (Nat.repr j).data = (Nat.repr k).data :=
    List.append_cancel_left (List.append_cancel_left hd)
  exact nat_repr_injective (String.ext hr)

theorem base_ne_slug_attempt (base : String) (k : Nat) :
    base ≠ slug_attempt base k := by
  intro h
  have hd := congrArg (fun s => s.data.length) h
  have h1 : (['-'] : List Char).length = 1 := rfl
  simp only [slug_attempt, String.data_append, List.length_append] at hd
  simp only [h1] at hd
  omega

theorem slug_attempt_ne_empty (base : String) (k : Nat) :
    slug_attempt base k ≠ "" := by
  intro h
  have hd := congrArg (fun s => s.data.length) h
  have h1 : (['-'] : List Char).length = 1 := rfl
  have h0 : (([] : List Char) : List Char).length = 0 := rfl
  simp only [slug_attempt, String.data_append, List.length_append] at hd
  simp only [h1, h0] at hd
  omega

theorem slug_cand_start_injective (base : String) :
    Function.Injective (slug_cand base base 1) := by
  intro j k h
  match j, k with
  | 0, 0 => rfl
  | 0, k + 1 => exact absurd h (base_ne_slug_attempt base (1 + k))
  | j + 1, 0 => exact absurd h.symm (base_ne_slug_attempt base (1 + j))
  | j + 1, k + 1 =>
    have := slug_attempt_injective base h
    omega

theorem find_free_slug_spec (base : String) (existing : List String) :
    ∀ (fuel : Nat) (slug : String) (counter : Nat),
      (∃ j, j < fuel ∧ slug_cand base slug counter j ∉ existing) →
      find_free_slug base existing fuel slug counter ∉ existing := by
  intro fuel
  induction fuel with
  | zero =>
    intro slug counter h
    obtain ⟨j, hj, _⟩ := h
    omega
  | succ fuel ih =>
    intro slug counter h
    obtain ⟨j, hj, hfree⟩ := h
    rw [find_free_slug]
    by_cases hs : slug ∈ existing
    · simp only [hs, if_pos]
      apply ih
      match j with
      | 0 => exact absurd hs hfree
      | j + 1 =>
        refine ⟨j, by omega, ?_⟩
        have heq : slug_cand base (slug_attempt base counter) (counter + 1) j
            = slug_cand base slug counter (j + 1) := by
          cases j with
          | zero => simp [slug_cand]
          | succ i =>
            show slug_attempt base (counter + 1 + i) = slug_attempt base (counter + (i + 1))
            have : counter + 1 + i = counter + (i + 1) := by omega
            rw [this]
        rw [heq]
        exact hfree
    · rw [if_neg hs]; exact hs

theorem exists_free_cand (base : String) (existing : List String) :
    ∃ j, j < existing.length + 1 ∧ slug_cand base base 1 j ∉ existing := by
  by_contra hc
  push_neg at hc
  have hsub : ((List.range (existing.length + 1)).map (slug_cand base base 1))
      ⊆ existing := by
    intro x hx
    simp only [List.mem_map, List.mem_range] at hx
    obtain ⟨j, hj, rfl⟩ := hx
    exact hc j hj
  have hnodup : ((List.range (existing.length + 1)).map (slug_cand base base 1)).Nodup :=
    (List.nodup_range _).map (slug_cand_start_injective base)
  have hlen := (hnodup.subperm hsub).length_le
  simp only [List.length_map, List.length_range] at hlen
  omega

/-- The slug produced by the collision loop never equals an existing slug. -/
theorem genSlug_not_mem (title : String) (existing : List String) :
    genSlug title existing ∉ existing :=
  find_free_slug_spec (slugify title) existing (existing.length + 1) (slugify title) 1
    (exists_free_cand (slugify title) existing)

theorem find_free_slug_ne_empty (base : String) (existing : List String) :
    ∀ (fuel : Nat) (slug : String) (counter : Nat), slug ≠ "" →
      find_free_slug base existing fuel slug counter ≠ "" := by
  intro fuel
  induction fuel with
  | zero => intro slug counter h; exact h
  | succ fuel ih =>
    intro slug counter h
    rw [find_free_slug]
    by_cases hs : slug ∈ existing
    · simp only [hs, if_pos]
      exact ih (slug_attempt base counter) (counter + 1) (slug_attempt_ne_empty base counter)
    · rw [if_neg hs]; exact h

/-- When the title yields a non-empty base slug, the generated slug is
non-empty. -/
theorem genSlug_ne_empty (title : String) (existing : List String)
    (h : slugify title ≠ "") : genSlug title existing ≠ "" :=
  find_free_slug_ne_empty (slugify title) existing (existing.length + 1) (slugify title) 1 h

example : genSlug "Test News" [] = "test-news" := by decide
example : genSlug "Test News" ["test-news"] = "test-news-1" := by decide

/-! ## Data model (`news/models.py`)

`News` mirrors the columns of the `news` table.  `status` is a nullable
enumeration defaulting to `'draft'`; the three audit columns hold plain user
identifiers (INTEGER, not foreign keys); timestamps are nullable. -/

/-- Values of the `status` column (`STATUS_CHOICES`; `'scheduled'` is
commented out in the source). -/
inductive NewsStatus where
  | draft
  | published
  | archived
deriving DecidableEq

/-- One row of the `news` table. -/
structure News where
  id : Int := 0
  title : String := ""
  slug : String := ""
  excerpt : Option String := none
  content : Option String := none
  image_url : Option String := none
  external_link : Option String := none
  status : Option NewsStatus := some .draft
  view_count : Option Int := some 0
  published_at : Option Int := none
  created_by : Option Int := none
  updated_by : Option Int := none
  published_by : Option Int := none
  created_at : Option Int := none
  updated_at : Option Int := none
  deleted_at : Option Int := none
deriving DecidableEq

/-- Manager that excludes soft-deleted rows by default
(`SoftDeleteManager.get_queryset`, models.py lines 8-11). -/
def SoftDeleteManager.get_queryset (db : List News) : List News :=
  db.filter fun n => n.deleted_at = none

/-- Override of `Model.save` (models.py lines 96-114): generate a slug when
the record has none (Python falsiness of a string: empty), fill
`created_at` when it is `None`, and always stamp `updated_at`.
`all_slugs` is the slug column of `News.all_objects`. -/
def News.save (all_slugs : List String) (now : Int) (n : News) : News :=
  let n := if n.slug = "" then { n with slug := genSlug n.title all_slugs } else n
  let n := if n.created_at = none then { n with created_at := some now } else n
  { n with updated_at := some now }

/-- Method `News.soft_delete` (models.py lines 116-121): stamp `deleted_at`,
record the actor in `updated_by` only when `user_id` is truthy, save. -/
def News.soft_delete (user_id : Option Int) (all_slugs : List String)
    (now : Int) (n : News) : News :=
  let n := { n with deleted_at := some now }
  let n := if py_truthy_int user_id then { n with updated_by := user_id } else n
  n.save all_slugs now

/-- Method `News.restore` (models.py lines 123-126): clear `deleted_at` and
save. -/
def News.restore (all_slugs : List String) (now : Int) (n : News) : News :=
  News.save all_slugs now { n with deleted_at := none }

/-- Method `News.increment_views` (models.py lines 128-131):
`self.view_count = (self.view_count or 0) + 1` followed by
`self.save(update_fields=['view_count'])`; for an integer value, `or 0`
maps `None` to `0` and is the identity otherwise, i.e. `Option.getD 0`.
Only the counter column is persisted. -/
def News.increment_views (n : News) : News :=
  { n with view_count := some (n.view_count.getD 0 + 1) }

/-- Property `News.is_published` (models.py lines 133-147): status is
`'published'` and `published_at` is set and not in the future (naive/aware
conversion is not modelled; times are plain integers). -/
def News.is_published (now : Int) (n : News) : Bool :=
  match n.status, n.published_at with
  | some .published, some t => t ≤ now
  | _, _ => false

/-! ## API layer (`news/views.py`)

The audit columns of a persisted row hold plain integer identifiers.  The
view and serializer code, however, sometimes assigns the `User` object
`request.user` itself to one of these `IntegerField` columns (views.py
line 133, serializers.py lines 242 and 250); the in-memory instance
accepts this, but on `Model.save` Django prepares each integer column with
`IntegerField.get_prep_value`, which applies `int(value)` — a `User` has
no `__int__`, so the save raises `TypeError`, the request fails with
HTTP 500 and nothing is persisted.  (The admin code, by contrast, assigns
`request.user.id`, admin.py lines 146-148 and 204.)  `NewsInstance` below
models the in-memory object, recording which integer slots hold a `User`
object. -/

/-- An in-memory `News` instance during request handling: the row data
plus flags recording that an `IntegerField` audit slot currently holds the
`User` object `request.user` instead of an integer id.  While a slot holds
a `User` object, the corresponding `row` field is not meaningful and is
never read. -/
structure NewsInstance where
  row : News
  updated_by_holds_user : Bool := false
  published_by_holds_user : Bool := false
deriving DecidableEq

/-- `Model.save` on an in-memory instance: `IntegerField.get_prep_value`
applies `int(value)` to each integer column, so a slot holding a `User`
object makes the save raise `TypeError` (`none`: HTTP 500, nothing
persisted); otherwise the overridden `News.save` runs and the row is
persisted. -/
def NewsInstance.save (all_slugs : List String) (now : Int)
    (o : NewsInstance) : Option News :=
  if o.updated_by_holds_user || o.published_by_holds_user then none
  else some (o.row.save all_slugs now)

/-- Outcome of the `publish` action. -/
inductive PublishOutcome where
  /-- HTTP 400, `'No se puede publicar una novedad eliminada'`. -/
  | bad_request
  /-- HTTP 200, `'Esta novedad ya está publicada'`, record untouched. -/
  | already_published
  /-- HTTP 200, `'Novedad publicada exitosamente'`. -/
  | published_ok
  /-- HTTP 500: `news.save()` raised `TypeError` because `published_by`
  holds the `User` object assigned at views.py line 133. -/
  | server_error
deriving DecidableEq

/-- Action `NewsViewSet.publish` (views.py lines 112-141): reject a
soft-deleted record, report an already-published record unchanged, and
otherwise set the status, fill `published_at` when falsy (a datetime: when
`None`), execute `news.published_by = request.user` when `published_by` is
falsy (`None` or `0`), and save.  The second component is the persisted
row after the request: unchanged unless the save ran and succeeded.  The
`request.user` assignment places a `User` object in the `IntegerField`
slot, so exactly on the falsy-`published_by` branch the save raises
`TypeError` and the action answers HTTP 500 with nothing persisted. -/
def NewsViewSet.publish (all_slugs : List String) (now : Int)
    (news : News) : PublishOutcome × News :=
  if news.deleted_at ≠ none then (.bad_request, news)
  else if news.status = some .published then (.already_published, news)
  else
    let obj : NewsInstance := { row := { news with status := some .published } }
    let obj := if py_truthy_datetime obj.row.published_at then obj
      else { obj with row := { obj.row with published_at := some now } }
    let obj := if py_truthy_int obj.row.published_by then obj
      else { obj with published_by_holds_user := true }
    match obj.save all_slugs now with
    | some saved => (.published_ok, saved)
    | none => (.server_error, news)

/-- Action `NewsViewSet.increment_views` (views.py lines 143-159): `none`
models the HTTP 404 `'Novedad no disponible'` response, in which case the
record is not modified. -/
def NewsViewSet.increment_views (now : Int) (news : News) : Option News :=
  if news.deleted_at ≠ none ∨ ¬ news.is_published now then none
  else some news.increment_views

/-- Filtered queryset of `NewsViewSet.get_queryset` (views.py lines 56-75).
`News.objects` is the `SoftDeleteManager`; `deleted` is the raw
`?deleted=` query parameter. -/
def NewsViewSet.get_queryset (is_staff : Bool) (deleted : Option String)
    (db : List News) : List News :=
  let queryset := SoftDeleteManager.get_queryset db
  let queryset := if ¬ is_staff then queryset.filter (fun n => n.deleted_at = none)
    else queryset
  if deleted = some "true" then db.filter (fun n => n.deleted_at ≠ none)
  else if deleted = some "false" then db.filter (fun n => n.deleted_at = none)
  else queryset

/-- Soft delete instead of physical delete: `NewsViewSet.perform_destroy`
(views.py lines 89-91) runs `instance.soft_delete(user=self.request.user)`.
The call is modelled at the Python call-binding level below
(`perform_destroy_call_kwargs`), because the method it targets only accepts
the keyword `user_id`. -/
def News.soft_delete_kwparams : List String := ["user_id"]

/-- Keyword arguments supplied by the call in `perform_destroy`:
`instance.soft_delete(user=self.request.user)`. -/
def NewsViewSet.perform_destroy_call_kwargs : List String := ["user"]

/-- A Python call binds only when every supplied keyword names a declared
parameter (no `**kwargs` is declared on `News.soft_delete`). -/
def python_call_binds (accepted supplied : List String) : Bool :=
  supplied.all fun kw => accepted.contains kw

/-- Queryset of the public mirror (`PublicNewsViewSet.get_queryset`,
views.py lines 271-277; the `public` action at lines 161-185 applies the
same filter): published, publication date not in the future, not deleted;
`News.objects` additionally excludes soft-deleted rows. -/
def PublicNewsViewSet.get_queryset (now : Int) (db : List News) : List News :=
  (SoftDeleteManager.get_queryset db).filter fun n =>
    decide (n.status = some .published) &&
    (match n.published_at with
      | some t => decide (t ≤ now)
      | none => false) &&
    decide (n.deleted_at = none)

/-! ## Update serializer (`news/serializers.py` lines 212-261)

`NewsUpdateSerializer` is the serializer the viewset uses for `update` and
`partial_update`.  `validated_data` is modelled as a patch of optional
fields (absent / present); nullable columns carry `Option (Option _)`. -/

/-- Validated payload of `NewsUpdateSerializer` (writable fields
`title, excerpt, content, image_url, external_link, status, published_at`;
`category_ids` is popped before field assignment and not modelled). -/
structure NewsPatch where
  title : Option String := none
  excerpt : Option (Option String) := none
  content : Option (Option String) := none
  image_url : Option (Option String) := none
  external_link : Option (Option String) := none
  status : Option (Option NewsStatus) := none
  published_at : Option (Option Int) := none
deriving DecidableEq

/-- Field assignment loop `for attr, value in validated_data.items():
setattr(instance, attr, value)`. -/
def NewsPatch.apply (p : NewsPatch) (n : News) : News :=
  let n := match p.title with | some v => { n with title := v } | none => n
  let n := match p.excerpt with | some v => { n with excerpt := v } | none => n
  let n := match p.content with | some v => { n with content := v } | none => n
  let n := match p.image_url with | some v => { n with image_url := v } | none => n
  let n := match p.external_link with
    | some v => { n with external_link := v } | none => n
  let n := match p.status with | some v => { n with status := v } | none => n
  match p.published_at with | some v => { n with published_at := v } | none => n

/-- Method `NewsUpdateSerializer.update` (serializers.py lines 235-261):
execute `instance.updated_by = request.user` (line 242); when the payload
sets status to `'published'` while the instance is not yet published, fill
`published_at` if `None` and execute `instance.published_by =
request.user` (line 250); then apply the field assignments and call
`instance.save()`.  Both `request.user` assignments place the `User`
object in an `IntegerField` slot, and the first one is unconditional, so
the save always raises `TypeError`: the result is `none` (HTTP 500) and
the persisted row is never changed by this method.
(`NewsDetailSerializer.update`, lines 135-161, assigns `request.user` to
`updated_by`/`published_by` the same way via `validated_data` and fails
identically; the viewset routes `update`/`partial_update` to
`NewsUpdateSerializer`.) -/
def NewsUpdateSerializer.update (all_slugs : List String) (now : Int)
    (patch : NewsPatch) (inst : News) : Option News :=
  let obj : NewsInstance := { row := inst, updated_by_holds_user := true }
  let obj :=
    if patch.status = some (some .published) ∧ obj.row.status ≠ some .published then
      let obj := if obj.row.published_at = none then
        { obj with row := { obj.row with published_at := some now } } else obj
      { obj with published_by_holds_user := true }
    else obj
  ({ obj with row := patch.apply obj.row } : NewsInstance).save all_slugs now

/-! ## Admin image upload (`news/admin.py` lines 27-28 and 61-92) -/

/-- Allowed MIME types (`ALLOWED_IMAGE_TYPES`). -/
def ALLOWED_IMAGE_TYPES : List String :=
  ["image/jpeg", "image/png", "image/gif", "image/webp"]

/-- Maximum upload size in bytes (`MAX_UPLOAD_SIZE = 5 * 1024 * 1024`). -/
def MAX_UPLOAD_SIZE : Nat := 5 * 1024 * 1024

/-- An uploaded file as the view reads it (`request.FILES["image"]`). -/
structure UploadedFile where
  name : String
  content_type : String
  size : Nat
deriving DecidableEq

/-- Response of the upload view, plus whether `default_storage.save` ran. -/
structure UploadResult where
  status : Nat
  error : Option String
  url : Option String
  stored : Bool
deriving DecidableEq

/-- Python `os.path.splitext(p)[1]`: the suffix of the basename starting at
its last dot, where leading dots of the basename do not count. -/
def splitext_ext (p : String) : String :=
  let base := (p.data.reverse.takeWhile fun c => c ≠ '/').reverse
  let rest := base.dropWhile fun c => c == '.'
  let tail := rest.reverse.takeWhile fun c => c ≠ '.'
  if tail.length = rest.length then ""
  else ('.' :: tail.reverse).asString

/-- View `NewsAdmin.upload_image_view` (admin.py lines 61-92).  The storage
backend is abstracted: `default_storage.save(filename, ...)` is modelled as
returning `filename`, and the fresh `uuid4().hex` is the parameter
`uuid_hex`; `media_url` is `settings.MEDIA_URL`. -/
def NewsAdmin.upload_image_view (method : String) (image : Option UploadedFile)
    (uuid_hex media_url : String) : UploadResult :=
  if method ≠ "POST" then
    { status := 405, error := some "Método no permitido.", url := none, stored := false }
  else
    match image with
    | none =>
      { status := 400, error := some "No se recibió ninguna imagen.",
        url := none, stored := false }
    | some file =>
      if file.content_type ∉ ALLOWED_IMAGE_TYPES then
        { status := 400, error := some "Tipo no permitido. Usá JPG, PNG, GIF o WebP.",
          url := none, stored := false }
      else if file.size > MAX_UPLOAD_SIZE then
        { status := 400, error := some "La imagen supera el límite de 5MB.",
          url := none, stored := false }
      else
        let ext0 := ((splitext_ext file.name).data.map Char.toLower).asString
        let ext := if ext0 = "" then ".jpg" else ext0
        let filename := "news/images/" ++ uuid_hex ++ ext
        { status := 200, error := none,
          url := some ("/" ++ media_url ++ filename), stored := true }

/-! ## Helper lemmas about the operations -/

theorem News.save_status (s : List String) (t : Int) (n : News) :
    (News.save s t n).status = n.status := by
  simp only [News.save]; split <;> split <;> rfl

theorem News.save_published_at (s : List String) (t : Int) (n : News) :
    (News.save s t n).published_at = n.published_at := by
  simp only [News.save]; split <;> split <;> rfl

theorem News.save_published_by (s : List String) (t : Int) (n : News) :
    (News.save s t n).published_by = n.published_by := by
  simp only [News.save]; split <;> split <;> rfl

theorem News.save_deleted_at (s : List String) (t : Int) (n : News) :
    (News.save s t n).deleted_at = n.deleted_at := by
  simp only [News.save]; split <;> split <;> rfl

theorem News.save_updated_by (s : List String) (t : Int) (n : News) :
    (News.save s t n).updated_by = n.updated_by := by
  simp only [News.save]; split <;> split <;> rfl

theorem News.save_title (s : List String) (t : Int) (n : News) :
    (News.save s t n).title = n.title := by
  simp only [News.save]; split <;> split <;> rfl

theorem News.save_slug_of_empty (s : List String) (t : Int) (n : News)
    (h : n.slug = "") : (News.save s t n).slug = genSlug n.title s := by
  simp only [News.save]
  rw [if_pos h]
  split <;> rfl

theorem NewsPatch.apply_published_by (p : NewsPatch) (n : News) :
    (p.apply n).published_by = n.published_by := by
  rcases p with ⟨t, e, c, i, l, s, pa⟩
  unfold NewsPatch.apply
  cases t <;> cases e <;> cases c <;> cases i <;> cases l <;> cases s <;> cases pa <;> rfl

/-! ## Claims -/

/-- Claim C1, counterexample.  The claim states that the slug resulting
from a save with no slug is always non-empty; saving a record whose title
is `"!!!"` (which slugifies to the empty base slug) against an empty table
yields the empty slug. -/
theorem c1_empty_slug_counterexample :
    (News.save [] 100 { title := "!!!" }).slug = "" := by decide

/-- Claim C1 (amended): on save of a record with no slug, the derived slug
is taken by appending `-1`, `-2`, … to the base slug until it differs from
every existing slug (soft-deleted rows included), so it is always globally
unique; it is non-empty provided the title yields a non-empty base slug;
and a second record titled "Test News" after "test-news" is taken receives
"test-news-1". -/
theorem c1_slug_generation :
    (∀ (title : String) (existing : List String),
        genSlug title existing ∉ existing
        ∧ (slugify title ≠ "" → genSlug title existing ≠ ""))
    ∧ (∀ (n : News) (all_slugs : List String) (now : Int), n.slug = "" →
        (News.save all_slugs now n).slug = genSlug n.title all_slugs
        ∧ (News.save all_slugs now n).slug ∉ all_slugs)
    ∧ (News.save [] 100 { title := "Test News" }).slug = "test-news"
    ∧ (News.save ["test-news"] 100 { title := "Test News" }).slug = "test-news-1" := by
  refine ⟨fun title existing =>
      ⟨genSlug_not_mem title existing, genSlug_ne_empty title existing⟩,
    fun n all_slugs now h => ?_, by decide, by decide⟩
  have hs := News.save_slug_of_empty all_slugs now n h
  exact ⟨hs, hs ▸ genSlug_not_mem n.title all_slugs⟩

/-- Witness for the amended claim C1 at concrete inputs. -/
theorem c1_slug_generation_witness :
    genSlug "Test News" ["test-news"] ≠ ""
    ∧ (News.save ["x"] 5 { title := "Draft" }).slug = genSlug "Draft" ["x"] := by
  constructor
  · exact (c1_slug_generation.1 "Test News" ["test-news"]).2 (by decide)
  · exact (c1_slug_generation.2.1 ({ title := "Draft" } : News) ["x"] 5 rfl).1

/-- Claim C3.  The spec states that HTTP DELETE soft-deletes the record,
and `perform_destroy` is documented and tested to do so, but its call
`instance.soft_delete(user=self.request.user)` supplies the keyword `user`
while `News.soft_delete(self, user_id=None)` only accepts `user_id`: the
call does not bind and raises `TypeError`, so the request fails instead of
soft-deleting. -/
theorem c3_perform_destroy_kwargs_mismatch :
    python_call_binds News.soft_delete_kwparams
      NewsViewSet.perform_destroy_call_kwargs = false := by decide

/-- Claim C8.  The claim states that no choice of query parameters lets a
non-staff caller see a soft-deleted record; but `get_queryset` handles the
`?deleted=true` parameter before any staff check, replacing the queryset
with `News.all_objects.filter(deleted_at__isnull=False)`: a non-staff
caller passing `?deleted=true` receives exactly the soft-deleted rows. -/
theorem c8_nonstaff_sees_deleted :
    NewsViewSet.get_queryset false (some "true")
        [{ title := "x", slug := "x", deleted_at := some 5 }]
      = [{ title := "x", slug := "x", deleted_at := some 5 }]
    ∧ ({ title := "x", slug := "x", deleted_at := some 5 } : News).deleted_at ≠ none := by
  decide

/-- Claim C10: `soft_delete` always stamps `deleted_at` with the current
time, but records the actor in `updated_by` only when the supplied
identifier is truthy; with `None` (the default, i.e. an omitted argument)
or `0`, `updated_by` is left unchanged while the record is still marked
deleted. -/
theorem c10_soft_delete_truthy_actor (n : News) (user_id : Option Int)
    (all_slugs : List String) (now : Int) :
    (News.soft_delete user_id all_slugs now n).deleted_at = some now
    ∧ (News.soft_delete user_id all_slugs now n).updated_by
        = (if py_truthy_int user_id then user_id else n.updated_by) := by
  simp only [News.soft_delete]
  constructor
  · rw [News.save_deleted_at]; split <;> rfl
  · rw [News.save_updated_by]
    by_cases h : py_truthy_int user_id = true <;> simp [h]

/-- Claim C2.  The claim (matching `test_publish_news`, which expects
HTTP 200 and a persisted published status with `published_at` set) states
that publishing a non-deleted, not-yet-published record sets the status,
fills `published_at`/`published_by` when unset and persists.  On the
failing input — a draft record with `published_by` unset — views.py line
133 assigns the `User` object `request.user` to the `IntegerField`
`published_by`, so `news.save()` raises `TypeError`: HTTP 500 and nothing
persisted.  A record already carrying an integer `published_by` publishes
fine with `published_by` unchanged, and the deleted / already-published
branches answer as claimed. -/
theorem c2_publish_typeerror_on_unset_published_by :
    (NewsViewSet.publish [] 100
        ({ title := "a", slug := "a", status := some .draft } : News)).1
      = .server_error
    ∧ (NewsViewSet.publish [] 100
        ({ title := "a", slug := "a", status := some .draft } : News)).2
      = ({ title := "a", slug := "a", status := some .draft } : News)
    ∧ (NewsViewSet.publish [] 100
        ({ title := "b", slug := "b", status := some .draft,
            published_by := some 5 } : News)).1 = .published_ok
    ∧ (NewsViewSet.publish [] 100
        ({ title := "b", slug := "b", status := some .draft,
            published_by := some 5 } : News)).2.status = some .published
    ∧ (NewsViewSet.publish [] 100
        ({ title := "b", slug := "b", status := some .draft,
            published_by := some 5 } : News)).2.published_by = some 5
    ∧ NewsViewSet.publish [] 100
        ({ title := "c", slug := "c", deleted_at := some 5 } : News)
      = (.bad_request, { title := "c", slug := "c", deleted_at := some 5 })
    ∧ NewsViewSet.publish [] 100
        ({ title := "d", slug := "d", status := some .published } : News)
      = (.already_published,
          { title := "d", slug := "d", status := some .published }) := by decide

/-- Claim C4: across publish and full/partial update operations, the
persisted `published_by` is written at most once and, once non-null, is
never changed.  This holds in a degenerate way: every
`NewsUpdateSerializer.update` call raises `TypeError` at `instance.save()`
(the unconditional `instance.updated_by = request.user` places a `User`
object in an `IntegerField` slot), so an update never persists anything —
in particular never a `published_by` overwrite; and `publish` succeeds
only when `published_by` is already truthy (leaving it unchanged), raising
`TypeError` itself on the branch that assigns `request.user` to it.  So no
cited operation ever changes the persisted `published_by`. -/
theorem c4_published_by_never_changed (all_slugs : List String) (now : Int)
    (patch : NewsPatch) (n : News) :
    NewsUpdateSerializer.update all_slugs now patch n = none
    ∧ (NewsViewSet.publish all_slugs now n).2.published_by = n.published_by := by
  constructor
  · simp only [NewsUpdateSerializer.update]
    have key : ∀ (o : NewsInstance), o.updated_by_holds_user = true →
        NewsInstance.save all_slugs now o = none := by
      intro o ho
      simp [NewsInstance.save, ho]
    apply key
    split
    · split <;> rfl
    · rfl
  · by_cases hdel : n.deleted_at = none
    · by_cases hpub : n.status = some .published
      · simp [NewsViewSet.publish, hdel, hpub]
      · simp only [NewsViewSet.publish, hdel]
        rw [if_neg (by simp), if_neg hpub]
        by_cases hpb : py_truthy_int n.published_by = true <;>
          by_cases hpa : py_truthy_datetime n.published_at = true <;>
            simp [hpa, hpb, NewsInstance.save, News.save_published_by]
    · simp [NewsViewSet.publish, hdel]

/-- Claim C5: on a published (status published, `published_at` set and not
in the future) and non-deleted record, each `increment_views` call
increments the view counter by exactly one (a `None` counter counts as 0);
on a soft-deleted or unpublished record the endpoint increments nothing
and responds not-found. -/
theorem c5_increment_views_endpoint (now : Int) (n : News) :
    (n.deleted_at = none → n.is_published now = true →
      NewsViewSet.increment_views now n = some (News.increment_views n)
      ∧ (News.increment_views n).view_count = some (n.view_count.getD 0 + 1))
    ∧ ((n.deleted_at ≠ none ∨ n.is_published now = false) →
      NewsViewSet.increment_views now n = none) := by
  constructor
  · intro hdel hpub
    refine ⟨?_, rfl⟩
    simp [NewsViewSet.increment_views, hdel, hpub]
  · intro h
    rcases h with hdel | hpub
    · simp [NewsViewSet.increment_views, hdel]
    · simp [NewsViewSet.increment_views, hpub]

/-- Witness for claim C5: a concrete published record is bumped from 3 to
4 views; a concrete soft-deleted one is refused. -/
theorem c5_increment_views_endpoint_witness :
    NewsViewSet.increment_views 100
        ({ title := "a", slug := "a", status := some .published,
            published_at := some 50, view_count := some 3 } : News)
      = some (News.increment_views
          { title := "a", slug := "a", status := some .published,
            published_at := some 50, view_count := some 3 })
    ∧ (News.increment_views
        ({ title := "a", slug := "a", status := some .published,
            published_at := some 50, view_count := some 3 } : News)).view_count
      = some 4
    ∧ NewsViewSet.increment_views 100
        ({ title := "b", slug := "b", status := some .published,
            published_at := some 50, deleted_at := some 60 } : News)
      = none := by
  obtain ⟨h1, h2⟩ := (c5_increment_views_endpoint 100
    ({ title := "a", slug := "a", status := some .published,
        published_at := some 50, view_count := some 3 } : News)).1 rfl (by decide)
  refine ⟨h1, ?_, ?_⟩
  · rw [h2]; rfl
  · exact (c5_increment_views_endpoint 100
      ({ title := "b", slug := "b", status := some .published,
          published_at := some 50, deleted_at := some 60 } : News)).2
      (Or.inl (by decide))

/-- Claim C6: `soft_delete` stamps `deleted_at` with the current time, and
a subsequent `restore` clears `deleted_at` to null, returning the record
to the default (non-deleted) queryset used by non-privileged reads. -/
theorem c6_soft_delete_then_restore (n : News) (user_id : Option Int)
    (all_slugs : List String) (now : Int) (all_slugs2 : List String)
    (now2 : Int) (db : List News) :
    (News.soft_delete user_id all_slugs now n).deleted_at = some now
    ∧ (News.restore all_slugs2 now2
        (News.soft_delete user_id all_slugs now n)).deleted_at = none
    ∧ (News.restore all_slugs2 now2 (News.soft_delete user_id all_slugs now n) ∈ db →
        News.restore all_slugs2 now2 (News.soft_delete user_id all_slugs now n)
          ∈ SoftDeleteManager.get_queryset db) := by
  have hdel : (News.soft_delete user_id all_slugs now n).deleted_at = some now := by
    simp only [News.soft_delete]
    rw [News.save_deleted_at]; split <;> rfl
  have hres : (News.restore all_slugs2 now2
      (News.soft_delete user_id all_slugs now n)).deleted_at = none := by
    simp only [News.restore]
    rw [News.save_deleted_at]
  refine ⟨hdel, hres, fun hmem => ?_⟩
  unfold SoftDeleteManager.get_queryset
  rw [List.mem_filter]
  exact ⟨hmem, by simp [hres]⟩

/-- Witness for claim C6: a concrete record soft-deleted at time 50 and
restored at time 60 is back in the default queryset. -/
theorem c6_soft_delete_then_restore_witness :
    (News.soft_delete (some 7) [] 50 ({ title := "a", slug := "a" } : News)).deleted_at
      = some 50
    ∧ (News.restore [] 60 (News.soft_delete (some 7) [] 50
        ({ title := "a", slug := "a" } : News))).deleted_at = none
    ∧ News.restore [] 60 (News.soft_delete (some 7) [] 50
        ({ title := "a", slug := "a" } : News))
      ∈ SoftDeleteManager.get_queryset
          [News.restore [] 60 (News.soft_delete (some 7) [] 50
            ({ title := "a", slug := "a" } : News))] := by
  obtain ⟨h1, h2, h3⟩ := c6_soft_delete_then_restore
    ({ title := "a", slug := "a" } : News) (some 7) [] 50 [] 60
    [News.restore [] 60 (News.soft_delete (some 7) [] 50
      ({ title := "a", slug := "a" } : News))]
  exact ⟨h1, h2, h3 (List.mem_singleton.mpr rfl)⟩

/-- Claim C7: every record returned by the public listing queryset has
status published, a non-null publication timestamp not in the future, and
a null `deleted_at` — so the public listing never returns a draft,
archived, future-dated or soft-deleted record. -/
theorem c7_public_listing_only_published (now : Int) (db : List News)
    (n : News) (h : n ∈ PublicNewsViewSet.get_queryset now db) :
    n.status = some .published
    ∧ n.status ≠ some .draft
    ∧ n.status ≠ some .archived
    ∧ (∃ t, n.published_at = some t ∧ t ≤ now)
    ∧ n.deleted_at = none := by
  unfold PublicNewsViewSet.get_queryset SoftDeleteManager.get_queryset at h
  rw [List.mem_filter] at h
  obtain ⟨hmem, hcond⟩ := h
  rw [List.mem_filter] at hmem
  obtain ⟨-, hdel⟩ := hmem
  simp only [Bool.and_eq_true, decide_eq_true_eq] at hcond
  obtain ⟨⟨hstatus, hpub⟩, hdel2⟩ := hcond
  refine ⟨hstatus, by simp [hstatus], by simp [hstatus], ?_, hdel2⟩
  cases hpa : n.published_at with
  | none => rw [hpa] at hpub; simp at hpub
  | some t =>
    rw [hpa] at hpub
    simp only [decide_eq_true_eq] at hpub
    exact ⟨t, rfl, hpub⟩

/-- Witness for claim C7: a concrete published record present in a
concrete table is returned with the claimed properties. -/
theorem c7_public_listing_only_published_witness :
    ({ title := "a", slug := "a", status := some .published,
        published_at := some 50 } : News).status = some .published
    ∧ ({ title := "a", slug := "a", status := some .published,
          published_at := some 50 } : News).deleted_at = none := by
  have h := c7_public_listing_only_published 100
    [{ title := "a", slug := "a", status := some .published,
        published_at := some 50 }]
    ({ title := "a", slug := "a", status := some .published,
        published_at := some 50 } : News) (by decide)
  exact ⟨h.1, h.2.2.2.2⟩

/-- Claim C9: the admin image-upload endpoint answers a POST without a file
under `image`, with a disallowed MIME type, or with a file over 5 MB with a
400 JSON error and stores nothing; otherwise it stores the file and
answers 200 with a JSON object carrying the stored URL. -/
theorem c9_upload_image_validation (uuid_hex media_url : String)
    (f : UploadedFile) :
    ((NewsAdmin.upload_image_view "POST" none uuid_hex media_url).status = 400
      ∧ (NewsAdmin.upload_image_view "POST" none uuid_hex media_url).stored = false
      ∧ (NewsAdmin.upload_image_view "POST" none uuid_hex media_url).url = none)
    ∧ (f.content_type ∉ ALLOWED_IMAGE_TYPES →
      (NewsAdmin.upload_image_view "POST" (some f) uuid_hex media_url).status = 400
      ∧ (NewsAdmin.upload_image_view "POST" (some f) uuid_hex media_url).stored = false
      ∧ (NewsAdmin.upload_image_view "POST" (some f) uuid_hex media_url).url = none)
    ∧ (f.content_type ∈ ALLOWED_IMAGE_TYPES → f.size > MAX_UPLOAD_SIZE →
      (NewsAdmin.upload_image_view "POST" (some f) uuid_hex media_url).status = 400
      ∧ (NewsAdmin.upload_image_view "POST" (some f) uuid_hex media_url).stored = false
      ∧ (NewsAdmin.upload_image_view "POST" (some f) uuid_hex media_url).url = none)
    ∧ (f.content_type ∈ ALLOWED_IMAGE_TYPES → f.size ≤ MAX_UPLOAD_SIZE →
      (NewsAdmin.upload_image_view "POST" (some f) uuid_hex media_url).status = 200
      ∧ (NewsAdmin.upload_image_view "POST" (some f) uuid_hex media_url).stored = true
      ∧ (NewsAdmin.upload_image_view "POST" (some f) uuid_hex media_url).url ≠ none) := by
  refine ⟨?_, fun hct => ?_, fun hct hsz => ?_, fun hct hsz => ?_⟩
  · simp [NewsAdmin.upload_image_view]
  · simp [NewsAdmin.upload_image_view, hct]
  · simp [NewsAdmin.upload_image_view, hct, hsz]
  · have hns : ¬ f.size > MAX_UPLOAD_SIZE := by omega
    simp [NewsAdmin.upload_image_view, hct, hns]

/-- Witness for claim C9: a concrete 10-byte PNG upload is stored and a
concrete 6 MB PNG is refused. -/
theorem c9_upload_image_validation_witness :
    ((NewsAdmin.upload_image_view "POST"
        (some { name := "a.png", content_type := "image/png", size := 10 })
        "u" "media/").status = 200
      ∧ (NewsAdmin.upload_image_view "POST"
          (some { name := "a.png", content_type := "image/png", size := 10 })
          "u" "media/").stored = true)
    ∧ (NewsAdmin.upload_image_view "POST"
        (some { name := "b.png", content_type := "image/png", size := 6291456 })
        "u" "media/").status = 400 := by
  have h1 := (c9_upload_image_validation "u" "media/"
    { name := "a.png", content_type := "image/png", size := 10 }).2.2.2
    (by decide) (by decide)
  have h2 := (c9_upload_image_validation "u" "media/"
    { name := "b.png", content_type := "image/png", size := 6291456 }).2.2.1
    (by decide) (by decide)
  exact ⟨⟨h1.1, h1.2.1⟩, h2.1⟩
